import Mathlib

/-!
Shallow embedding of the GSSAPI wrapper in `testgss/src/main.rs` (libgssapi).

Foreign handles (context handles, name handles, credential handles, buffer
pointers) are modelled as `Nat`, with `0` playing the role of the null
pointer.  Reference-counted wrapper identity (an `Arc` allocation) is
modelled by an `arcId : Nat` tag: two wrappers are the same shared instance
exactly when their `arcId`s coincide; a freshly allocated wrapper receives a
caller-supplied fresh tag.

Calls into the foreign library are modelled by oracle records carrying the
values the library would write through its out-parameters, and each embedded
operation additionally returns the list of foreign calls it performs, so
that "performs no foreign call" and "releases the handle" are provable
statements.
-/

namespace Gss

/-- GSS_S_COMPLETE, the success sentinel of the library calling convention. -/
def GSS_S_COMPLETE : Nat := 0

/-- GSS_C_CALLING_ERROR_OFFSET from gssapi.h (via libgssapi_sys). -/
def GSS_C_CALLING_ERROR_OFFSET : Nat := 24

/-- GSS_C_ROUTINE_ERROR_OFFSET from gssapi.h (via libgssapi_sys). -/
def GSS_C_ROUTINE_ERROR_OFFSET : Nat := 16

/-- The calling-error mask 0377 (spelled `_GSS_C_CALLING_ERROR_MASK` in the
bindings). -/
def GSS_C_CALLING_ERROR_MASK : Nat := 255

/-- The routine-error mask 0377 (spelled `_GSS_C_ROUTINE_ERROR_MASK` in the
bindings). -/
def GSS_C_ROUTINE_ERROR_MASK : Nat := 255

/-- The continue-needed supplementary bit (spelled `_GSS_C_CONTINUE_NEEDED`
in the bindings): bit 0 of the major status word. -/
def GSS_C_CONTINUE_NEEDED : Nat := 1

/-- The "indefinite lifetime" request constant `_GSS_C_INDEFINITE`
(0xffffffff). -/
def GSS_C_INDEFINITE : Nat := 4294967295

/-- The krb5 mechanism OID `gss_mech_krb5`: an opaque foreign pointer,
modelled as a fixed non-null token. -/
def gss_mech_krb5 : Nat := 1

/-- Embedding of `gss_error` (main.rs lines 18-21): mask the major status
with the calling-error and routine-error bit fields. -/
def gss_error (x : Nat) : Nat :=
  x &&& ((GSS_C_CALLING_ERROR_MASK <<< GSS_C_CALLING_ERROR_OFFSET) |||
         (GSS_C_ROUTINE_ERROR_MASK <<< GSS_C_ROUTINE_ERROR_OFFSET))

/-- Embedding of `struct Error { major, minor }`: a paired status code from
a failed library operation. -/
structure Error where
  major : Nat
  minor : Nat
deriving Repr, DecidableEq

/-- Embedding of `Buf` (an owned `gss_buffer_desc`): a length and a value
pointer, `value = 0` meaning null. -/
structure Buf where
  length : Nat
  value : Nat
deriving Repr, DecidableEq

/-- Embedding of `Buf::empty`: zero length, null pointer. -/
def Buf.empty : Buf := ⟨0, 0⟩

/-- Embedding of `Cred` = `Cred(Arc<CredInner(gss_cred_id_t)>)`: `arcId`
identifies the shared `Arc` allocation (wrapper identity), `handle` is the
raw foreign credential handle.  Cloning the wrapper keeps both fields;
allocating a new wrapper around a handle uses a fresh `arcId`. -/
structure Cred where
  arcId : Nat
  handle : Nat
deriving Repr, DecidableEq

/-- The foreign library calls the embedded operations can perform, with the
arguments relevant to the specification. -/
inductive ForeignCall where
  | acceptSecContext (ctx : Nat) (cred : Nat)
  | initSecContext (ctx : Nat) (cred : Nat)
  | deleteSecContext (ctx : Nat)
  | releaseBuffer (value : Nat)
  | displayStatus (code : Nat) (cursor : Nat)
  | createEmptyOidSet
  | addOidSetMember (oid : Nat)
  | acquireCred (name : Nat) (timeReq : Nat) (mechs : List Nat) (usage : Int)
deriving Repr, DecidableEq

/-- Embedding of `delete_ctx` (main.rs lines 420-431): call
`gss_delete_sec_context` unless the handle is null.  The library's reply
`deleteRes` is bound to `_major`/`minor` and ignored (not propagated). -/
def delete_ctx (ctx : Nat) (_deleteRes : Error) : List ForeignCall :=
  if ctx = 0 then [] else [ForeignCall.deleteSecContext ctx]

/-- Embedding of the server context state enum (declared `AcceptCtxInner`
in the source, used as `ServerCtxInner` by its impls; same type). -/
inductive ServerCtxInner where
  | Failed (e : Error)
  | Uninit (cred : Cred)
  | Partial (ctx : Nat) (cred : Cred) (delegated_cred : Option Cred)
  | Complete (ctx : Nat) (delegated_cred : Option Cred)
deriving Repr, DecidableEq

/-- The foreign context handle held by a server state: only the `Partial`
and `Complete` constructors carry one. -/
def ServerCtxInner.ctxHandle : ServerCtxInner → Option Nat
  | .Failed _ => none
  | .Uninit _ => none
  | .Partial ctx _ _ => some ctx
  | .Complete ctx _ => some ctx

/-- Whether a server state is `Partial` or `Complete`. -/
def ServerCtxInner.holdsCtx : ServerCtxInner → Bool
  | .Failed _ => false
  | .Uninit _ => false
  | .Partial _ _ _ => true
  | .Complete _ _ => true

/-- The delegated credential stored in a server state: `none` when the
state has no such slot (`Failed`, `Uninit`), `some d` when it stores `d`. -/
def ServerCtxInner.delegatedOf : ServerCtxInner → Option (Option Cred)
  | .Failed _ => none
  | .Uninit _ => none
  | .Partial _ _ d => some d
  | .Complete _ d => some d

/-- Oracle record for one `gss_accept_sec_context` call: the values the
library writes back (major/minor status, the context handle left in the
in-out slot, the output token, and the delegated-credential out handle,
`0` meaning null). -/
structure AcceptResult where
  major : Nat
  minor : Nat
  newCtx : Nat
  outTok : Buf
  delegated_cred : Nat
deriving Repr, DecidableEq

/-- Embedding of the delegated-credential resolution block of
`ServerCtx::step` (main.rs lines 503-518): a null reported handle yields
`none`; otherwise the tracked wrapper is kept when its raw handle equals
the reported one, and a fresh wrapper (fresh `arcId`) is allocated when it
does not or when nothing was tracked. -/
def resolveDelegatedCred (reported : Nat) (current : Option Cred)
    (freshArcId : Nat) : Option Cred :=
  if reported = 0 then
    none
  else
    match current with
    | none => some ⟨freshArcId, reported⟩
    | some cur => if cur.handle = reported then some cur
                  else some ⟨freshArcId, reported⟩

/-- Embedding of the non-terminal part of `ServerCtx::step` (main.rs lines
485-530): perform the accept call (its reply given by the oracle `r`),
resolve the delegated credential, then classify the major status.  The
source's `Partial` construction at line 525 omits the `cred` field its own
enum declaration (lines 433-445) and its `Partial` match arm (line 480)
require; the embedding stores the credential the call used, the only value
the enum admits there. -/
def serverStepRun (r : AcceptResult) (deleteRes : Error) (freshArcId : Nat)
    (inCtx : Nat) (cred : Cred) (current : Option Cred) :
    Except Error (Option Buf) × ServerCtxInner × List ForeignCall :=
  let ctx := r.newCtx
  let delegated_cred := resolveDelegatedCred r.delegated_cred current freshArcId
  if gss_error r.major > 0 then
    let e : Error := ⟨r.major, r.minor⟩
    (Except.error e, ServerCtxInner.Failed e,
      ForeignCall.acceptSecContext inCtx cred.handle :: delete_ctx ctx deleteRes)
  else if r.major &&& GSS_C_CONTINUE_NEEDED > 0 then
    (Except.ok (some r.outTok), ServerCtxInner.Partial ctx cred delegated_cred,
      [ForeignCall.acceptSecContext inCtx cred.handle])
  else
    (Except.ok none, ServerCtxInner.Complete ctx delegated_cred,
      [ForeignCall.acceptSecContext inCtx cred.handle])

/-- Embedding of `ServerCtx::step` (main.rs lines 473-531): terminal states
return immediately without any foreign call; `Uninit` runs the accept call
with a null context handle, `Partial` with the stored handle and tracked
delegated credential. -/
def serverStep (r : AcceptResult) (deleteRes : Error) (freshArcId : Nat) :
    ServerCtxInner → Except Error (Option Buf) × ServerCtxInner × List ForeignCall
  | .Complete ctx d => (Except.ok none, ServerCtxInner.Complete ctx d, [])
  | .Failed e => (Except.error e, ServerCtxInner.Failed e, [])
  | .Uninit cred => serverStepRun r deleteRes freshArcId 0 cred none
  | .Partial ctx cred d => serverStepRun r deleteRes freshArcId ctx cred d

/-- Embedding of `impl Drop for ServerCtxInner` (main.rs lines 447-455):
`Failed` and `Uninit` release nothing; `Partial` and `Complete` run
`delete_ctx` on the held handle, ignoring the library's reply. -/
def serverCtxInnerDrop (s : ServerCtxInner) (deleteRes : Error) :
    List ForeignCall :=
  match s with
  | .Failed _ => []
  | .Uninit _ => []
  | .Partial ctx _ _ => delete_ctx ctx deleteRes
  | .Complete ctx _ => delete_ctx ctx deleteRes

/-- Embedding of the client context state enum `ClientCtxInner` (main.rs
lines 534-542). -/
inductive ClientCtxInner where
  | Failed (e : Error)
  | Uninit (cred : Cred)
  | Partial (ctx : Nat) (cred : Cred)
  | Complete (ctx : Nat)
deriving Repr, DecidableEq

/-- The foreign context handle held by a client state: only `Partial` and
`Complete` carry one. -/
def ClientCtxInner.ctxHandle : ClientCtxInner → Option Nat
  | .Failed _ => none
  | .Uninit _ => none
  | .Partial ctx _ => some ctx
  | .Complete ctx => some ctx

/-- Whether a client state is `Partial` or `Complete`. -/
def ClientCtxInner.holdsCtx : ClientCtxInner → Bool
  | .Failed _ => false
  | .Uninit _ => false
  | .Partial _ _ => true
  | .Complete _ => true

/-- Oracle record for one `gss_init_sec_context` call. -/
structure InitResult where
  major : Nat
  minor : Nat
  newCtx : Nat
  outTok : Buf
deriving Repr, DecidableEq

/-- Modelled from the spec: the non-terminal rounds of `ClientCtx::step`.
The source's `ClientCtx::step` body (main.rs lines 570-582) breaks off
after the state match that extracts `(ctx, cred)`; the spec (§4.6) says the
client mirrors the server state machine, driving the initiate-context
operation with no delegated-credential tracking, so the branch structure
mirrors `serverStepRun`. -/
def clientStepRun (r : InitResult) (deleteRes : Error)
    (inCtx : Nat) (cred : Cred) :
    Except Error (Option Buf) × ClientCtxInner × List ForeignCall :=
  let ctx := r.newCtx
  if gss_error r.major > 0 then
    let e : Error := ⟨r.major, r.minor⟩
    (Except.error e, ClientCtxInner.Failed e,
      ForeignCall.initSecContext inCtx cred.handle :: delete_ctx ctx deleteRes)
  else if r.major &&& GSS_C_CONTINUE_NEEDED > 0 then
    (Except.ok (some r.outTok), ClientCtxInner.Partial ctx cred,
      [ForeignCall.initSecContext inCtx cred.handle])
  else
    (Except.ok none, ClientCtxInner.Complete ctx,
      [ForeignCall.initSecContext inCtx cred.handle])

/-- Embedding of `ClientCtx::step` (main.rs lines 570-582): the terminal
arms are those of the source's state match (`Failed(e) => return Err(e)`,
`Complete(_) => return Ok(None)`), performed before any foreign call; the
non-terminal arms continue into `clientStepRun`. -/
def clientStep (r : InitResult) (deleteRes : Error) :
    ClientCtxInner → Except Error (Option Buf) × ClientCtxInner × List ForeignCall
  | .Failed e => (Except.error e, ClientCtxInner.Failed e, [])
  | .Complete ctx => (Except.ok none, ClientCtxInner.Complete ctx, [])
  | .Uninit cred => clientStepRun r deleteRes 0 cred
  | .Partial ctx cred => clientStepRun r deleteRes ctx cred

/-- Embedding of `impl Drop for ClientCtxInner` (main.rs lines 544-552). -/
def clientCtxInnerDrop (s : ClientCtxInner) (deleteRes : Error) :
    List ForeignCall :=
  match s with
  | .Failed _ => []
  | .Uninit _ => []
  | .Partial ctx _ => delete_ctx ctx deleteRes
  | .Complete ctx => delete_ctx ctx deleteRes

/-- Embedding of `impl Drop for Buf` (main.rs lines 142-155): a null value
pointer releases nothing; a non-null pointer is passed to
`gss_release_buffer` once, its reply `releaseRes` bound to `_major` and
ignored. -/
def bufDrop (b : Buf) (_releaseRes : Error) : List ForeignCall :=
  if b.value = 0 then [] else [ForeignCall.releaseBuffer b.value]

/-- Oracle record for one `gss_display_status` round inside
`Error::fmt_code`: the major status, the message bytes delivered in the
temporary buffer (lossy-decoded), the continuation cursor value the call
leaves in `message_context`, and the major status of the
`gss_release_buffer` call that follows a successful round. -/
structure DisplayStatusRound where
  major : Nat
  msg : String
  newCursor : Nat
  releaseMajor : Nat
deriving Repr, DecidableEq

/-- The line `Error::fmt_code` writes for one successfully decoded round:
`write!(f, "gssapi error {}\n", s)`. -/
def displayLine (r : DisplayStatusRound) : String :=
  "gssapi error " ++ r.msg ++ "\x0a"

/-- Concatenation of the lines of a list of rounds, in order. -/
def displayLines : List DisplayStatusRound → String
  | [] => ""
  | r :: rest => displayLine r ++ displayLines rest

/-- Embedding of the loop of `Error::fmt_code` (main.rs lines 30-73) over a
trace of library replies, one per iteration.  A successful round writes its
line, releases the temporary buffer (`none` models the panic when that
release fails), and loops unless the cursor came back as zero; an
unsuccessful round writes the fallback line with the original `code` and
stops.  `none` on an exhausted trace marks a run longer than the modelled
replies. -/
def fmt_code (code : Nat) : List DisplayStatusRound → Option String
  | [] => none
  | r :: rest =>
    if r.major = GSS_S_COMPLETE then
      if r.releaseMajor = GSS_S_COMPLETE then
        if r.newCursor = 0 then some (displayLine r)
        else (fmt_code code rest).map (fun s => displayLine r ++ s)
      else none
    else
      some ("gssapi unknown error code " ++ toString code ++ "\x0a")

/-- Embedding of `enum CredUsage`. -/
inductive CredUsage where
  | Accept
  | Initiate
  | Both
deriving Repr, DecidableEq

/-- GSS_C_BOTH from gssapi.h. -/
def GSS_C_BOTH : Int := 0

/-- GSS_C_INITIATE from gssapi.h. -/
def GSS_C_INITIATE : Int := 1

/-- GSS_C_ACCEPT from gssapi.h. -/
def GSS_C_ACCEPT : Int := 2

/-- The usage translation inside `Cred::acquire` (main.rs lines 393-397). -/
def credUsageArg : CredUsage → Int
  | .Both => GSS_C_BOTH
  | .Initiate => GSS_C_INITIATE
  | .Accept => GSS_C_ACCEPT

/-- Oracle record for the three library calls `Cred::acquire` makes: the
result of `gss_create_empty_oid_set`, of `gss_add_oid_set_member`, and of
`gss_acquire_cred` (on success, the credential handle written back). -/
structure AcquireEnv where
  createOidSet : Except Error Unit
  addOidSetMember : Except Error Unit
  acquireCred : Except Error Nat

/-- Embedding of `Cred::acquire` (main.rs lines 379-417): an absent name
becomes the null sentinel `0`, an absent `time_req` becomes
`GSS_C_INDEFINITE`, the desired-mechanism set is built internally as an
empty OID set with `gss_mech_krb5` added, and `gss_acquire_cred` is called
with those arguments.  Failures of any of the three calls propagate as the
library's `Error`. -/
def Cred.acquire (env : AcquireEnv) (freshArcId : Nat)
    (name : Option Nat) (time_req : Option Nat) (usage : CredUsage) :
    Except Error Cred × List ForeignCall :=
  let nameArg := name.getD 0
  let timeArg := time_req.getD GSS_C_INDEFINITE
  match env.createOidSet with
  | Except.error e => (Except.error e, [ForeignCall.createEmptyOidSet])
  | Except.ok _ =>
    match env.addOidSetMember with
    | Except.error e =>
      (Except.error e,
       [ForeignCall.createEmptyOidSet, ForeignCall.addOidSetMember gss_mech_krb5])
    | Except.ok _ =>
      let desired_mechs : List Nat := [gss_mech_krb5]
      let calls := [ForeignCall.createEmptyOidSet,
                    ForeignCall.addOidSetMember gss_mech_krb5,
                    ForeignCall.acquireCred nameArg timeArg desired_mechs
                      (credUsageArg usage)]
      match env.acquireCred with
      | Except.error e => (Except.error e, calls)
      | Except.ok h => (Except.ok ⟨freshArcId, h⟩, calls)

/-! ### Theorems -/

/-- C1: for every security context (server or client) in a terminal state,
`step` is idempotent and performs no foreign library call: a `Complete`
state returns `Ok(None)` and a `Failed(e)` state returns `Err(e)` with the
stored error, the state is unchanged, and the foreign-call trace is empty,
whatever the library oracle would have replied. -/
theorem step_terminal_idempotent :
    (∀ (r : AcceptResult) (dr : Error) (k ctx : Nat) (d : Option Cred),
      serverStep r dr k (ServerCtxInner.Complete ctx d) =
        (Except.ok none, ServerCtxInner.Complete ctx d, [])) ∧
    (∀ (r : AcceptResult) (dr : Error) (k : Nat) (e : Error),
      serverStep r dr k (ServerCtxInner.Failed e) =
        (Except.error e, ServerCtxInner.Failed e, [])) ∧
    (∀ (r : InitResult) (dr : Error) (ctx : Nat),
      clientStep r dr (ClientCtxInner.Complete ctx) =
        (Except.ok none, ClientCtxInner.Complete ctx, [])) ∧
    (∀ (r : InitResult) (dr : Error) (e : Error),
      clientStep r dr (ClientCtxInner.Failed e) =
        (Except.error e, ClientCtxInner.Failed e, [])) :=
  ⟨fun _ _ _ _ _ => rfl, fun _ _ _ _ => rfl, fun _ _ _ => rfl, fun _ _ _ => rfl⟩

/-- C2: a server `step` in state `Uninit` or `Partial` whose accept call
reports a major status with an error bit set (calling-error or
routine-error mask) releases the foreign context handle via `delete_ctx`,
transitions to `Failed` carrying the (major, minor) pair, and returns the
same pair as the error. -/
theorem serverStep_error_bits (r : AcceptResult) (dr : Error) (k : Nat)
    (h : gss_error r.major > 0) :
    (∀ c : Cred,
      serverStep r dr k (ServerCtxInner.Uninit c) =
        (Except.error ⟨r.major, r.minor⟩,
         ServerCtxInner.Failed ⟨r.major, r.minor⟩,
         ForeignCall.acceptSecContext 0 c.handle :: delete_ctx r.newCtx dr)) ∧
    (∀ (ctx : Nat) (c : Cred) (d : Option Cred),
      serverStep r dr k (ServerCtxInner.Partial ctx c d) =
        (Except.error ⟨r.major, r.minor⟩,
         ServerCtxInner.Failed ⟨r.major, r.minor⟩,
         ForeignCall.acceptSecContext ctx c.handle :: delete_ctx r.newCtx dr)) := by
  constructor
  · intro c
    simp [serverStep, serverStepRun, h]
  · intro ctx c d
    simp [serverStep, serverStepRun, h]

/-- C2 witness: a routine-error bit (here bit 16) drives a concrete
`Uninit` step into `Failed` with the pair (65536, 7), deleting the handle
the call left behind. -/
theorem serverStep_error_bits_witness :
    serverStep ⟨65536, 7, 5, Buf.empty, 0⟩ ⟨0, 0⟩ 9
        (ServerCtxInner.Uninit ⟨1, 2⟩) =
      (Except.error ⟨65536, 7⟩, ServerCtxInner.Failed ⟨65536, 7⟩,
       ForeignCall.acceptSecContext 0 2 :: delete_ctx 5 ⟨0, 0⟩) :=
  (serverStep_error_bits ⟨65536, 7, 5, Buf.empty, 0⟩ ⟨0, 0⟩ 9 (by decide)).1 ⟨1, 2⟩

/-- C3: a server `step` in state `Uninit` or `Partial` whose accept call
reports no error bits but the continue-needed bit transitions to `Partial`
holding the context handle, the credential, and the resolved (possibly
absent) delegated credential, and returns `Ok(Some(output_token))` with the
token the accept call produced. -/
theorem serverStep_continue_needed (r : AcceptResult) (dr : Error) (k : Nat)
    (hne : ¬ gss_error r.major > 0) (hc : r.major &&& GSS_C_CONTINUE_NEEDED > 0) :
    (∀ c : Cred,
      serverStep r dr k (ServerCtxInner.Uninit c) =
        (Except.ok (some r.outTok),
         ServerCtxInner.Partial r.newCtx c
           (resolveDelegatedCred r.delegated_cred none k),
         [ForeignCall.acceptSecContext 0 c.handle])) ∧
    (∀ (ctx : Nat) (c : Cred) (d : Option Cred),
      serverStep r dr k (ServerCtxInner.Partial ctx c d) =
        (Except.ok (some r.outTok),
         ServerCtxInner.Partial r.newCtx c
           (resolveDelegatedCred r.delegated_cred d k),
         [ForeignCall.acceptSecContext ctx c.handle])) := by
  constructor
  · intro c
    simp [serverStep, serverStepRun, hne, hc]
  · intro ctx c d
    simp [serverStep, serverStepRun, hne, hc]

/-- C3 witness: with major status exactly the continue-needed bit, a
concrete `Uninit` step moves to `Partial` and hands back the output
token. -/
theorem serverStep_continue_needed_witness :
    serverStep ⟨1, 0, 5, ⟨3, 40⟩, 0⟩ ⟨0, 0⟩ 9
        (ServerCtxInner.Uninit ⟨1, 2⟩) =
      (Except.ok (some ⟨3, 40⟩),
       ServerCtxInner.Partial 5 ⟨1, 2⟩ (resolveDelegatedCred 0 none 9),
       [ForeignCall.acceptSecContext 0 2]) :=
  (serverStep_continue_needed ⟨1, 0, 5, ⟨3, 40⟩, 0⟩ ⟨0, 0⟩ 9
    (by decide) (by decide)).1 ⟨1, 2⟩

/-- C4: at a success status (no error bits, no continue bit) the state does
transition to `Complete`, but a non-empty output token produced by the
accept call is not delivered: the source's success arm returns `Ok(None)`
unconditionally, dropping the 40-byte token this concrete run produced, so
the claim's delivery requirement fails on the code. -/
theorem serverStep_success_drops_token :
    serverStep ⟨0, 0, 5, ⟨40, 77⟩, 0⟩ ⟨0, 0⟩ 9
        (ServerCtxInner.Uninit ⟨1, 2⟩) =
      (Except.ok none, ServerCtxInner.Complete 5 none,
       [ForeignCall.acceptSecContext 0 2]) := rfl

/-- C5: when the accept call reports a non-null delegated-credential handle
equal to the one already tracked in the `Partial` state, the state stored
after a non-failing step carries the very same shared wrapper (same
`arcId`), and when the reported handle is non-null and different, a freshly
allocated wrapper (the fresh `arcId` `k`) around the reported handle is
stored instead. -/
theorem serverStep_delegated_identity (r : AcceptResult) (dr : Error)
    (k ctx : Nat) (c cur : Cred) (h0 : gss_error r.major = 0) :
    (r.delegated_cred = cur.handle → cur.handle ≠ 0 →
      ServerCtxInner.delegatedOf
          (serverStep r dr k (ServerCtxInner.Partial ctx c (some cur))).2.1 =
        some (some cur)) ∧
    (r.delegated_cred ≠ 0 → r.delegated_cred ≠ cur.handle →
      ServerCtxInner.delegatedOf
          (serverStep r dr k (ServerCtxInner.Partial ctx c (some cur))).2.1 =
        some (some { arcId := k, handle := r.delegated_cred })) := by
  have hne : ¬ gss_error r.major > 0 := by omega
  constructor
  · intro hh hz
    by_cases hc : r.major &&& GSS_C_CONTINUE_NEEDED > 0 <;>
      (simp [serverStep, serverStepRun, hne, hc, resolveDelegatedCred,
        ServerCtxInner.delegatedOf, hh]; exact hz)
  · intro hz hd
    have hd' : cur.handle ≠ r.delegated_cred := fun h => hd h.symm
    by_cases hc : r.major &&& GSS_C_CONTINUE_NEEDED > 0 <;>
      simp [serverStep, serverStepRun, hne, hc, resolveDelegatedCred,
        ServerCtxInner.delegatedOf, hz, hd']

/-- C5 witness: a step reporting the tracked handle 8 again keeps wrapper
⟨4, 8⟩ itself (same `arcId` 4, not the fresh id 9). -/
theorem serverStep_delegated_identity_witness :
    ServerCtxInner.delegatedOf
        (serverStep ⟨1, 0, 5, Buf.empty, 8⟩ ⟨0, 0⟩ 9
          (ServerCtxInner.Partial 5 ⟨1, 2⟩ (some ⟨4, 8⟩))).2.1 =
      some (some ⟨4, 8⟩) :=
  (serverStep_delegated_identity ⟨1, 0, 5, Buf.empty, 8⟩ ⟨0, 0⟩ 9 5 ⟨1, 2⟩ ⟨4, 8⟩
    (by decide)).1 (by decide) (by decide)

/-- C10: when the accept call reports a null delegated-credential handle,
the state stored after a non-failing step holds no delegated credential,
even though the preceding `Partial` state tracked one: the tracked wrapper
is discarded. -/
theorem serverStep_null_delegated_discards (r : AcceptResult) (dr : Error)
    (k ctx : Nat) (c : Cred) (d : Option Cred)
    (hnull : r.delegated_cred = 0) (h0 : gss_error r.major = 0) :
    ServerCtxInner.delegatedOf
        (serverStep r dr k (ServerCtxInner.Partial ctx c d)).2.1 =
      some none := by
  have hne : ¬ gss_error r.major > 0 := by omega
  by_cases hc : r.major &&& GSS_C_CONTINUE_NEEDED > 0 <;>
    simp [serverStep, serverStepRun, hne, hc, resolveDelegatedCred,
      ServerCtxInner.delegatedOf, hnull]

/-- C10 witness: a tracked delegated wrapper ⟨4, 8⟩ is dropped when the
accept call reports the null handle. -/
theorem serverStep_null_delegated_discards_witness :
    ServerCtxInner.delegatedOf
        (serverStep ⟨1, 0, 5, Buf.empty, 0⟩ ⟨0, 0⟩ 9
          (ServerCtxInner.Partial 5 ⟨1, 2⟩ (some ⟨4, 8⟩))).2.1 =
      some none :=
  serverStep_null_delegated_discards ⟨1, 0, 5, Buf.empty, 0⟩ ⟨0, 0⟩ 9 5 ⟨1, 2⟩
    (some ⟨4, 8⟩) (by decide) (by decide)

/-- C6: for both context types, a foreign context handle is held only in
the `Partial` and `Complete` states (`ctxHandle` is `some` exactly when
`holdsCtx`), destruction performs the delete-context call exactly for those
states (given the held handle is non-null), performs nothing for `Uninit`
and `Failed`, and the destructor's behaviour does not depend on the
library's delete reply (no failure propagation). -/
theorem ctx_drop_exactly_partial_or_complete (dr : Error) :
    (∀ s : ServerCtxInner, s.ctxHandle.isSome = s.holdsCtx) ∧
    (∀ s : ServerCtxInner, s.holdsCtx = false → serverCtxInnerDrop s dr = []) ∧
    (∀ (s : ServerCtxInner) (h : Nat), s.ctxHandle = some h → h ≠ 0 →
      serverCtxInnerDrop s dr = [ForeignCall.deleteSecContext h]) ∧
    (∀ (s : ServerCtxInner) (dr' : Error),
      serverCtxInnerDrop s dr = serverCtxInnerDrop s dr') ∧
    (∀ s : ClientCtxInner, s.ctxHandle.isSome = s.holdsCtx) ∧
    (∀ s : ClientCtxInner, s.holdsCtx = false → clientCtxInnerDrop s dr = []) ∧
    (∀ (s : ClientCtxInner) (h : Nat), s.ctxHandle = some h → h ≠ 0 →
      clientCtxInnerDrop s dr = [ForeignCall.deleteSecContext h]) ∧
    (∀ (s : ClientCtxInner) (dr' : Error),
      clientCtxInnerDrop s dr = clientCtxInnerDrop s dr') := by
  refine ⟨?_, ?_, ?_, ?_, ?_, ?_, ?_, ?_⟩
  · intro s; cases s <;> rfl
  · intro s hs
    cases s <;> simp_all [ServerCtxInner.holdsCtx, serverCtxInnerDrop]
  · intro s h hsome hnz
    cases s <;>
      simp_all [ServerCtxInner.ctxHandle, serverCtxInnerDrop, delete_ctx]
  · intro s dr'; cases s <;> rfl
  · intro s; cases s <;> rfl
  · intro s hs
    cases s <;> simp_all [ClientCtxInner.holdsCtx, clientCtxInnerDrop]
  · intro s h hsome hnz
    cases s <;>
      simp_all [ClientCtxInner.ctxHandle, clientCtxInnerDrop, delete_ctx]
  · intro s dr'; cases s <;> rfl

/-- C6 witness: dropping a concrete `Complete` server state deletes its
handle 5, and dropping a concrete `Failed` client state deletes nothing. -/
theorem ctx_drop_exactly_partial_or_complete_witness :
    serverCtxInnerDrop (ServerCtxInner.Complete 5 none) ⟨0, 0⟩ =
        [ForeignCall.deleteSecContext 5] ∧
    clientCtxInnerDrop (ClientCtxInner.Failed ⟨1, 2⟩) ⟨0, 0⟩ = [] :=
  ⟨(ctx_drop_exactly_partial_or_complete ⟨0, 0⟩).2.2.1
      (ServerCtxInner.Complete 5 none) 5 rfl (by decide),
   (ctx_drop_exactly_partial_or_complete ⟨0, 0⟩).2.2.2.2.2.1
      (ClientCtxInner.Failed ⟨1, 2⟩) rfl⟩

/-- C7: when the two OID-set calls succeed, `Cred::acquire` issues the
acquire call with the null-handle sentinel `0` for an absent principal,
`GSS_C_INDEFINITE` for an absent `time_req` (never zero), and a mechanism
set holding exactly the one fixed mechanism `gss_mech_krb5` built
internally. -/
theorem cred_acquire_defaults (env : AcquireEnv) (k : Nat) (usage : CredUsage)
    (h1 : env.createOidSet = Except.ok ())
    (h2 : env.addOidSetMember = Except.ok ()) :
    (∀ name t : Option Nat,
      (Cred.acquire env k name t usage).2 =
        [ForeignCall.createEmptyOidSet,
         ForeignCall.addOidSetMember gss_mech_krb5,
         ForeignCall.acquireCred (name.getD 0) (t.getD GSS_C_INDEFINITE)
           [gss_mech_krb5] (credUsageArg usage)]) ∧
    (Cred.acquire env k none none usage).2 =
      [ForeignCall.createEmptyOidSet,
       ForeignCall.addOidSetMember gss_mech_krb5,
       ForeignCall.acquireCred 0 GSS_C_INDEFINITE
         [gss_mech_krb5] (credUsageArg usage)] := by
  have main : ∀ name t : Option Nat,
      (Cred.acquire env k name t usage).2 =
        [ForeignCall.createEmptyOidSet,
         ForeignCall.addOidSetMember gss_mech_krb5,
         ForeignCall.acquireCred (name.getD 0) (t.getD GSS_C_INDEFINITE)
           [gss_mech_krb5] (credUsageArg usage)] := by
    intro name t
    simp [Cred.acquire, h1, h2]
    cases h3 : env.acquireCred <;> simp [h3]
  exact ⟨main, main none none⟩

/-- C7 witness: the concrete all-successful environment with no principal
and no time request issues the acquire call with the null sentinel, the
indefinite lifetime, and the singleton krb5 mechanism set. -/
theorem cred_acquire_defaults_witness :
    (Cred.acquire ⟨Except.ok (), Except.ok (), Except.ok 5⟩ 3
        none none CredUsage.Accept).2 =
      [ForeignCall.createEmptyOidSet,
       ForeignCall.addOidSetMember gss_mech_krb5,
       ForeignCall.acquireCred 0 GSS_C_INDEFINITE
         [gss_mech_krb5] (credUsageArg CredUsage.Accept)] :=
  (cred_acquire_defaults ⟨Except.ok (), Except.ok (), Except.ok 5⟩ 3
    CredUsage.Accept rfl rfl).2

/-- C9: dropping an owned buffer whose pointer is null (in particular
`Buf.empty`) performs no foreign release call; dropping one with a non-null
pointer performs exactly one release-buffer call, and the destructor's
output does not depend on the library's release reply (no failure
propagation), so no buffer handle is ever released twice. -/
theorem bufDrop_no_double_release :
    (∀ rr : Error, bufDrop Buf.empty rr = []) ∧
    (∀ (b : Buf) (rr : Error), b.value = 0 → bufDrop b rr = []) ∧
    (∀ (b : Buf) (rr : Error), b.value ≠ 0 →
      bufDrop b rr = [ForeignCall.releaseBuffer b.value]) ∧
    (∀ (b : Buf) (r1 r2 : Error), bufDrop b r1 = bufDrop b r2) := by
  refine ⟨fun rr => rfl, ?_, ?_, fun b r1 r2 => rfl⟩
  · intro b rr h0
    simp [bufDrop, h0]
  · intro b rr hnz
    simp [bufDrop, hnz]

/-- C9 witness: a concrete buffer at pointer 7 is released exactly once,
and the empty buffer releases nothing. -/
theorem bufDrop_no_double_release_witness :
    bufDrop ⟨3, 7⟩ ⟨0, 0⟩ = [ForeignCall.releaseBuffer 7] ∧
    bufDrop Buf.empty ⟨0, 0⟩ = [] :=
  ⟨bufDrop_no_double_release.2.2.1 ⟨3, 7⟩ ⟨0, 0⟩ (by decide),
   bufDrop_no_double_release.1 ⟨0, 0⟩⟩

/-- C8: `Error::fmt_code` concatenates, in order, one line per successful
decode round, terminating exactly when the continuation cursor returns to
zero — any further modelled replies are never consumed — and when the
library reports the code as unrecognized (non-success decode status) it
emits the single fallback "unknown error code" line and stops. -/
theorem fmt_code_concatenates (code : Nat) :
    (∀ (mids : List DisplayStatusRound) (lastR : DisplayStatusRound)
       (extra : List DisplayStatusRound),
      (∀ r ∈ mids, r.major = GSS_S_COMPLETE ∧
        r.releaseMajor = GSS_S_COMPLETE ∧ r.newCursor ≠ 0) →
      lastR.major = GSS_S_COMPLETE → lastR.releaseMajor = GSS_S_COMPLETE →
      lastR.newCursor = 0 →
      fmt_code code (mids ++ lastR :: extra) =
        some (displayLines (mids ++ [lastR]))) ∧
    (∀ (r : DisplayStatusRound) (rest : List DisplayStatusRound),
      r.major ≠ GSS_S_COMPLETE →
      fmt_code code (r :: rest) =
        some ("gssapi unknown error code " ++ toString code ++ "\x0a")) := by
  constructor
  · intro mids
    induction mids with
    | nil =>
      intro lastR extra hm hl1 hl2 hl3
      simp [fmt_code, displayLines, hl1, hl2, hl3, String.append_empty]
    | cons r rest ih =>
      intro lastR extra hm hl1 hl2 hl3
      have hr := hm r (by simp)
      have hrest : ∀ x ∈ rest, x.major = GSS_S_COMPLETE ∧
          x.releaseMajor = GSS_S_COMPLETE ∧ x.newCursor ≠ 0 :=
        fun x hx => hm x (by simp [hx])
      simp [fmt_code, displayLines, hr.1, hr.2.1, hr.2.2,
        ih lastR extra hrest hl1 hl2 hl3]
  · intro r rest hr
    simp [fmt_code, hr]

/-- C8 witness: a two-round decode (first cursor 1, then 0) concatenates
the two lines in order and ignores a trailing extra reply. -/
theorem fmt_code_concatenates_witness :
    fmt_code 7 [⟨0, "a", 1, 0⟩, ⟨0, "b", 0, 0⟩, ⟨0, "c", 0, 0⟩] =
      some (displayLines [⟨0, "a", 1, 0⟩, ⟨0, "b", 0, 0⟩]) :=
  (fmt_code_concatenates 7).1 [⟨0, "a", 1, 0⟩] ⟨0, "b", 0, 0⟩ [⟨0, "c", 0, 0⟩]
    (by simp [GSS_S_COMPLETE]) rfl rfl rfl

end Gss
